import Mathlib

/- Shallow embedding of src/link_connection.h (C port of gba-link-connection).

   Modelling conventions:
   - u16 values are Nat; every u16-typed input crossing the system boundary
     (application payloads, the four REG_SIOMULTI receive registers) is
     constrained to < 65536 there, so no arithmetic in the core can overflow
     16 bits and no explicit masking is needed inside the embedded code.
   - u32 counters (len, irq_timeout, cap, cursors) are Nat.  The only
     decrement, len - 1 in u16q_pop, is Nat-truncated; in the C code u16q_pop
     is reached only through LINK_QUEUE_POP under the i = j emptiness guard,
     and under that guard len is positive in every state the code constructs,
     so the u32 wraparound of len-- is never exercised.
   - int timeouts[] is Int; LINK_REMOTE_TIMEOUT_OFFLINE is -1.  The C cast
     (int)self->remote_timeout is the identity for remote_timeout < 2^31,
     which covers every configuration the driver documents.
   - The hardware registers (REG_SIOCNT status bits, REG_SIOMULTI, the
     assigned player-id field) are an input record Hardware read by the
     interrupt reactions.  A reaction returns, besides the new connection
     value, an Option Nat: some v exactly when the reaction called
     lc_transfer with v (writing REG_SIOMLT_SEND to start/answer an
     exchange); none otherwise.  lc_stop/lc_start only write timer and
     control registers and do not touch any LinkConnection field.
   - malloc leaves the queue storage uninitialized; u16q_init therefore takes
     the arbitrary initial cell contents as a parameter. -/

def LINK_MAX_PLAYERS : Nat := 4

def LINK_DISCONNECTED : Nat := 0xFFFF

def LINK_NO_DATA : Nat := 0x0

def LINK_REMOTE_TIMEOUT_OFFLINE : Int := -1

/-- Mirror of struct U16Queue: backing buffer, capacity, length, head cursor
i, tail cursor j. -/
structure U16Queue where
  buf : Nat → Nat
  cap : Nat
  len : Nat
  i : Nat
  j : Nat

/-- Mirror of u16q_init: fresh queue over (uninitialized) storage g. -/
def u16q_init (cap : Nat) (g : Nat → Nat) : U16Queue :=
  { buf := g, cap := cap, len := 0, i := 0, j := 0 }

/-- Mirror of u16q_empty: the head and tail cursors coincide. -/
def u16q_empty (q : U16Queue) : Bool :=
  q.i == q.j

/-- Mirror of u16q_front. -/
def u16q_front (q : U16Queue) : Nat :=
  q.buf q.i

/-- Mirror of u16q_pop: advance i (wrapping at cap), decrement len. -/
def u16q_pop (q : U16Queue) : U16Queue :=
  let q1 := { q with i := q.i + 1 }
  let q2 := if q1.i ≥ q1.cap then { q1 with i := 0 } else q1
  { q2 with len := q2.len - 1 }

/-- Mirror of u16q_push: store n at j, advance j (wrapping at cap),
increment len.  Note the C code performs no capacity check here. -/
def u16q_push (q : U16Queue) (n : Nat) : U16Queue :=
  let q1 := { q with buf := Function.update q.buf q.j n, j := q.j + 1 }
  let q2 := if q1.j ≥ q1.cap then { q1 with j := 0 } else q1
  { q2 with len := q2.len + 1 }

/-- Mirror of LINK_QUEUE_POP: the popped value (LINK_NO_DATA when the i = j
test reports empty) together with the resulting queue. -/
def LINK_QUEUE_POP (q : U16Queue) : Nat × U16Queue :=
  if u16q_empty q then (LINK_NO_DATA, q)
  else (u16q_front q, u16q_pop q)

/-- Fuel-indexed unfolding of the LINK_QUEUE_CLEAR while loop: pop until the
i = j test reports empty, or the fuel runs out. -/
def clearFuel : Nat → U16Queue → U16Queue
  | 0, q => q
  | n + 1, q => if u16q_empty q then q else clearFuel n (u16q_pop q)

/-- Mirror of LINK_QUEUE_CLEAR.  For every queue whose cursors are in range
(i < cap and j < cap, true of every queue the C code allocates), the while
loop performs at most cap pops before i meets j, so fuel cap + 1 makes the
fuel-indexed function coincide with the C loop on all such queues. -/
def LINK_QUEUE_CLEAR (q : U16Queue) : U16Queue :=
  clearFuel (q.cap + 1) q

/-- Mirror of struct LinkState. -/
structure LinkState where
  player_count : Nat
  current_player_id : Nat
  incoming_messages : Fin 4 → U16Queue
  outgoing_messages : U16Queue
  timeouts : Fin 4 → Int
  irq_flag : Bool
  irq_timeout : Nat
  is_locked : Bool

/-- Mirror of struct LinkConnection. -/
structure LinkConnection where
  state : LinkState
  baud_rate : Nat
  timeout : Nat
  remote_timeout : Nat
  buffer_size : Nat
  interval : Nat
  send_timer_id : Nat
  is_enabled : Bool

/-- Mirror of struct LinkConnectionSettings. -/
structure LinkConnectionSettings where
  baud_rate : Nat
  timeout : Nat
  remote_timeout : Nat
  buffer_size : Nat
  interval : Nat
  send_timer_id : Nat

/-- The hardware register state visible to one reaction: the SIOCNT status
bits the code reads, the 2-bit assigned player-id field, and the four
REG_SIOMULTI receive registers. -/
structure Hardware where
  isReady : Bool
  hasError : Bool
  isSlave : Bool
  isSending : Bool
  playerId : Fin 4
  siomulti : Fin 4 → Nat

/-- Mirror of linkstate_init: `LinkState self = {}` zero-initializes every
scalar field, then the five queues are allocated with capacity buffer_size
(their malloc'd cell contents gin/gout are arbitrary). -/
def linkstate_init (buffer_size : Nat) (gin : Fin 4 → Nat → Nat)
    (gout : Nat → Nat) : LinkState :=
  { player_count := 0
    current_player_id := 0
    incoming_messages := fun k => u16q_init buffer_size (gin k)
    outgoing_messages := u16q_init buffer_size gout
    timeouts := fun _ => 0
    irq_flag := false
    irq_timeout := 0
    is_locked := false }

/-- Mirror of lc_init (lc_stop only writes hardware registers). -/
def lc_init (settings : LinkConnectionSettings) (gin : Fin 4 → Nat → Nat)
    (gout : Nat → Nat) : LinkConnection :=
  { state := linkstate_init settings.buffer_size gin gout
    baud_rate := settings.baud_rate
    timeout := settings.timeout
    remote_timeout := settings.remote_timeout
    buffer_size := settings.buffer_size
    interval := settings.interval
    send_timer_id := settings.send_timer_id
    is_enabled := false }

/-- Mirror of lc_did_timeout: irq_timeout >= timeout. -/
def lc_did_timeout (self : LinkConnection) : Bool :=
  decide (self.state.irq_timeout ≥ self.timeout)

/-- Mirror of lc_reset_state: zero the counts, clear all five queues, set
every remote timeout to the offline sentinel, clear the activity flag and
the silence counter. -/
def lc_reset_state (self : LinkConnection) : LinkConnection :=
  { self with state := { self.state with
      player_count := 0
      current_player_id := 0
      incoming_messages :=
        (fun k => LINK_QUEUE_CLEAR (self.state.incoming_messages k))
      timeouts := fun _ => LINK_REMOTE_TIMEOUT_OFFLINE
      outgoing_messages := LINK_QUEUE_CLEAR self.state.outgoing_messages
      irq_flag := false
      irq_timeout := 0 } }

/-- Mirror of lc_reset: lc_reset_state, then lc_stop and lc_start, which only
write timer/control hardware registers (lc_start also writes
REG_SIOMLT_SEND = 0 directly, not through lc_transfer). -/
def lc_reset (self : LinkConnection) : LinkConnection :=
  lc_reset_state self

/-- Mirror of lc_activate: full reset, then mark enabled. -/
def lc_activate (self : LinkConnection) : LinkConnection :=
  { lc_reset self with is_enabled := true }

/-- Mirror of lc_deactivate: mark disabled, reset the state (lc_stop is
hardware-only). -/
def lc_deactivate (self : LinkConnection) : LinkConnection :=
  lc_reset_state { self with is_enabled := false }

/-- Mirror of lc_send: reserved sentinel values return immediately; any other
value is pushed onto the outgoing queue with u16q_push (is_locked is set and
then cleared around the push, so its net effect is nil and the push is
modelled atomically).  Note the C code calls u16q_push directly here, not
lc_push. -/
def lc_send (self : LinkConnection) (data : Nat) : LinkConnection :=
  if data = LINK_DISCONNECTED ∨ data = LINK_NO_DATA then self
  else { self with state := { self.state with
          outgoing_messages := u16q_push self.state.outgoing_messages data } }

/-- Mirror of linkstate_read_message: pop the slot's incoming queue with
LINK_QUEUE_POP; there is no player_id range check (is_locked toggles net to
nil).  player_id is Fin 4 because an id ≥ LINK_MAX_PLAYERS indexes outside
the incoming_messages array in C (undefined behavior, not modelled). -/
def linkstate_read_message (st : LinkState) (player_id : Fin 4) :
    Nat × LinkState :=
  let r := LINK_QUEUE_POP (st.incoming_messages player_id)
  (r.1, { st with incoming_messages :=
            (Function.update st.incoming_messages player_id r.2) })

/-- Mirror of lc_read_message. -/
def lc_read_message (self : LinkConnection) (player_id : Fin 4) :
    Nat × LinkConnection :=
  let r := linkstate_read_message self.state player_id
  (r.1, { self with state := r.2 })

/-- Mirror of lc_on_vblank: skip when disabled or locked; if no serial IRQ
arrived since the previous frame (irq_flag still false) increment the
silence counter; always clear the flag. -/
def lc_on_vblank (self : LinkConnection) : LinkConnection :=
  if !self.is_enabled || self.state.is_locked then self
  else
    let st := if !self.state.irq_flag then
        { self.state with irq_timeout := self.state.irq_timeout + 1 }
      else self.state
    { self with state := { st with irq_flag := false } }

/-- Mirror of lc_on_timer: skip when disabled or locked; on watchdog expiry
perform a full reset (no lc_transfer call); otherwise, when this node is
master, the transport is ready and no transfer is in flight, pop the
outgoing queue and hand the value to lc_transfer. -/
def lc_on_timer (self : LinkConnection) (hw : Hardware) :
    LinkConnection × Option Nat :=
  if !self.is_enabled || self.state.is_locked then (self, none)
  else if lc_did_timeout self then (lc_reset self, none)
  else if !hw.isSlave && hw.isReady && !hw.isSending then
    let pr := LINK_QUEUE_POP self.state.outgoing_messages
    ({ self with state := { self.state with outgoing_messages := pr.2 } },
     some pr.1)
  else (self, none)

/-- The body of the per-slot for loop of lc_on_serial, acting on the evolving
(state, new_player_count) pair for slot k with received value d:
a value other than DISCONNECTED counts the slot, resets its timeout and, when
it is a real payload from another slot, enqueues it; DISCONNECTED on a slot
not already offline increments the timeout, evicting the slot (queue cleared,
timeout set offline, not counted) once the incremented value reaches
remote_timeout and counting it otherwise; DISCONNECTED on an offline slot
changes nothing. -/
def serialSlot (rt : Nat) (d : Nat) (k : Fin 4) (p : LinkState × Nat) :
    LinkState × Nat :=
  if d ≠ LINK_DISCONNECTED then
    let st1 :=
      if d ≠ LINK_NO_DATA ∧ (k : Nat) ≠ p.1.current_player_id then
        { p.1 with incoming_messages :=
            (Function.update p.1.incoming_messages k
              (u16q_push (p.1.incoming_messages k) d)) }
      else p.1
    ({ st1 with timeouts := Function.update st1.timeouts k 0 }, p.2 + 1)
  else if p.1.timeouts k > LINK_REMOTE_TIMEOUT_OFFLINE then
    if p.1.timeouts k + 1 ≥ (rt : Int) then
      ({ p.1 with
          timeouts :=
            (Function.update p.1.timeouts k LINK_REMOTE_TIMEOUT_OFFLINE),
          incoming_messages := (Function.update p.1.incoming_messages k
            (LINK_QUEUE_CLEAR (p.1.incoming_messages k))) }, p.2)
    else
      ({ p.1 with timeouts :=
          (Function.update p.1.timeouts k (p.1.timeouts k + 1)) }, p.2 + 1)
  else p

/-- The for loop of lc_on_serial unrolled over the four slots
(LINK_MAX_PLAYERS = 4), starting from new_player_count = 0. -/
def serialLoop (rt : Nat) (d : Fin 4 → Nat) (st : LinkState) :
    LinkState × Nat :=
  serialSlot rt (d 3) 3
    (serialSlot rt (d 2) 2
      (serialSlot rt (d 1) 1
        (serialSlot rt (d 0) 0 (st, 0))))

/-- Mirror of lc_on_serial: skip when disabled or locked; full reset when the
transport reports not-ready or error (lc_reset_if_needed); otherwise set the
activity flag, zero the silence counter, scan the four slots, install the new
player count and the hardware-assigned player id, and, when this node is a
slave, pop the outgoing queue and hand the value to lc_transfer. -/
def lc_on_serial (self : LinkConnection) (hw : Hardware) :
    LinkConnection × Option Nat :=
  if !self.is_enabled || self.state.is_locked then (self, none)
  else if !hw.isReady || hw.hasError then (lc_reset self, none)
  else
    let st0 := { self.state with irq_flag := true, irq_timeout := 0 }
    let r := serialLoop self.remote_timeout hw.siomulti st0
    let st1 := { r.1 with
      player_count := r.2
      current_player_id := (hw.playerId : Nat) }
    if hw.isSlave then
      let pr := LINK_QUEUE_POP st1.outgoing_messages
      ({ self with state := { st1 with outgoing_messages := pr.2 } },
       some pr.1)
    else ({ self with state := st1 }, none)

/-- Iterated exchange-complete reactions: serialIter s hws n is the
connection after n lc_on_serial invocations, the m-th one reading the
hardware snapshot hws m. -/
def serialIter (s : LinkConnection) (hws : Nat → Hardware) :
    Nat → LinkConnection
  | 0 => s
  | n + 1 => (lc_on_serial (serialIter s hws n) (hws n)).1

/-- Iterated tick reactions: n consecutive lc_on_vblank invocations. -/
def vblankIter (s : LinkConnection) : Nat → LinkConnection
  | 0 => s
  | n + 1 => lc_on_vblank (vblankIter s n)

/-- Membership of cell index x in the live circular range [i, j) of the
buffer: the cells LINK_QUEUE_POP can ever read before the cursors meet.
When the cursors coincide the range is empty (matching the u16q_empty
test, which cannot distinguish an empty from an overflowed queue). -/
def InRegion (q : U16Queue) (x : Nat) : Prop :=
  if q.i ≤ q.j then q.i ≤ x ∧ x < q.j
  else x < q.j ∨ (q.i ≤ x ∧ x < q.cap)

/-- Queue invariant carried through every reachable state: cursors in range
and no reserved sentinel stored in any live cell. -/
def QInv (q : U16Queue) : Prop :=
  q.i < q.cap ∧ q.j < q.cap ∧
    ∀ x, InRegion q x →
      q.buf x ≠ LINK_NO_DATA ∧ q.buf x ≠ LINK_DISCONNECTED

/-- Number of pops the LINK_QUEUE_CLEAR loop performs on a queue with
in-range cursors: the circular distance from i to j. -/
def qdist (q : U16Queue) : Nat :=
  if q.i ≤ q.j then q.j - q.i else q.cap + q.j - q.i

/-- The value slot k's timeout counter holds after one lc_on_serial scan in
which slot k reported d, given its previous counter t. -/
def slotTimeout (t : Int) (d : Nat) (rt : Nat) : Int :=
  if d ≠ LINK_DISCONNECTED then 0
  else if t > LINK_REMOTE_TIMEOUT_OFFLINE then
    (if t + 1 ≥ (rt : Int) then LINK_REMOTE_TIMEOUT_OFFLINE else t + 1)
  else t

/-- Slot k's incoming queue after one lc_on_serial scan in which slot k
reported d, given its previous counter t and the node's own slot id pid. -/
def slotQueue (q : U16Queue) (t : Int) (d : Nat) (rt : Nat) (pid : Nat)
    (k : Nat) : U16Queue :=
  if d ≠ LINK_DISCONNECTED then
    (if d ≠ LINK_NO_DATA ∧ k ≠ pid then u16q_push q d else q)
  else if t > LINK_REMOTE_TIMEOUT_OFFLINE then
    (if t + 1 ≥ (rt : Int) then LINK_QUEUE_CLEAR q else q)
  else q

/-- Slot k's contribution to new_player_count in one lc_on_serial scan. -/
def countSlot (t : Int) (d : Nat) (rt : Nat) : Nat :=
  if d ≠ LINK_DISCONNECTED then 1
  else if t > LINK_REMOTE_TIMEOUT_OFFLINE then
    (if t + 1 ≥ (rt : Int) then 0 else 1)
  else 0

/-- The states the driver can reach: a freshly activated connection (with
arbitrary malloc contents in the queue buffers and a positive capacity),
closed under the three interrupt reactions and the public API.  u16-typed
inputs (application payloads, receive registers) are constrained to 16 bits
at this boundary; read_message slot ids are constrained to the four array
slots (larger ids index out of bounds in C). -/
inductive Reachable : LinkConnection → Prop
  | init (cfg : LinkConnectionSettings) (gin : Fin 4 → Nat → Nat)
      (gout : Nat → Nat) (hbs : 0 < cfg.buffer_size) :
      Reachable (lc_activate (lc_init cfg gin gout))
  | vblank {s : LinkConnection} (hs : Reachable s) :
      Reachable (lc_on_vblank s)
  | timer {s : LinkConnection} (hw : Hardware) (hs : Reachable s) :
      Reachable (lc_on_timer s hw).1
  | serial {s : LinkConnection} (hw : Hardware)
      (hhw : ∀ m : Fin 4, hw.siomulti m < 65536) (hs : Reachable s) :
      Reachable (lc_on_serial s hw).1
  | send {s : LinkConnection} (v : Nat) (hv : v < 65536) (hs : Reachable s) :
      Reachable (lc_send s v)
  | read {s : LinkConnection} (pid : Fin 4) (hs : Reachable s) :
      Reachable (lc_read_message s pid).2
  | activate {s : LinkConnection} (hs : Reachable s) :
      Reachable (lc_activate s)
  | deactivate {s : LinkConnection} (hs : Reachable s) :
      Reachable (lc_deactivate s)

/-- The sentinel-freedom property of claim C7, as a predicate on states: no
live incoming-queue cell holds a reserved sentinel, read_message never
returns DISCONNECTED, and it returns NO_DATA only when the slot's queue
reports empty. -/
def sentinelFreeSpec (s : LinkConnection) : Prop :=
  (∀ k : Fin 4, ∀ x, InRegion (s.state.incoming_messages k) x →
      (s.state.incoming_messages k).buf x ≠ LINK_NO_DATA ∧
      (s.state.incoming_messages k).buf x ≠ LINK_DISCONNECTED) ∧
  (∀ pid : Fin 4, (lc_read_message s pid).1 ≠ LINK_DISCONNECTED ∧
      ((lc_read_message s pid).1 = LINK_NO_DATA →
        u16q_empty (s.state.incoming_messages pid) = true))

/-- The grace-period/eviction property of claim C4 for slot i of connection
s under the exchange sequence hws: while the silent-exchange count stays
below remote_timeout the slot keeps its counter, keeps its queue and
contributes 1 to the new peer count; on the exchange where the count
reaches remote_timeout the queue is cleared, the counter goes offline and
the slot contributes 0. -/
def gracePeriodSpec (s : LinkConnection) (hws : Nat → Hardware)
    (i : Fin 4) : Prop :=
  (∀ n : Nat, n + 1 < s.remote_timeout →
      (serialIter s hws (n + 1)).state.timeouts i = (n : Int) + 1 ∧
      (serialIter s hws (n + 1)).state.incoming_messages i =
        s.state.incoming_messages i ∧
      (serialIter s hws (n + 1)).state.player_count =
        (∑ m ∈ Finset.univ.erase i,
          countSlot ((serialIter s hws n).state.timeouts m)
            ((hws n).siomulti m) s.remote_timeout) + 1) ∧
  ((serialIter s hws s.remote_timeout).state.timeouts i =
      LINK_REMOTE_TIMEOUT_OFFLINE ∧
    u16q_empty
      ((serialIter s hws s.remote_timeout).state.incoming_messages i) =
      true ∧
    (serialIter s hws s.remote_timeout).state.player_count =
      ∑ m ∈ Finset.univ.erase i,
        countSlot
          ((serialIter s hws (s.remote_timeout - 1)).state.timeouts m)
          ((hws (s.remote_timeout - 1)).siomulti m) s.remote_timeout)

/-- Zeroed storage standing in for one concrete malloc outcome. -/
def g0 : Nat → Nat := fun _ => 0

/-- A concrete configuration: capacity 2, silence timeout 3, remote
timeout 5. -/
def cfg0 : LinkConnectionSettings :=
  { baud_rate := 1, timeout := 3, remote_timeout := 5, buffer_size := 2,
    interval := 50, send_timer_id := 3 }

/-- A freshly activated connection under cfg0. -/
def c0 : LinkConnection := lc_activate (lc_init cfg0 (fun _ => g0) g0)

/-- A hardware snapshot of a completed exchange: slots 0 and 2 present
(values 5 and 7), slots 1 and 3 absent, this node master with slot id 0. -/
def hw2 : Hardware :=
  { isReady := true, hasError := false, isSlave := false, isSending := false,
    playerId := 0,
    siomulti := fun k => if k = 0 then 5 else if k = 2 then 7
      else LINK_DISCONNECTED }

/-- The connection after that exchange: peer_count 2, one message queued
from slot 2. -/
def s2 : LinkConnection := (lc_on_serial c0 hw2).1

/-- cfg0 with silence timeout 1. -/
def cfg5 : LinkConnectionSettings := { cfg0 with timeout := 1 }

/-- Freshly activated connection with silence timeout 1, after one
successful exchange (activity flag set) and then exactly one tick with no
intervening exchange. -/
def s5c : LinkConnection :=
  lc_on_vblank (lc_on_serial (lc_activate (lc_init cfg5 (fun _ => g0) g0))
    hw2).1

/-- A master/ready/idle hardware snapshot with silent receive registers. -/
def hwT : Hardware :=
  { isReady := true, hasError := false, isSlave := false, isSending := false,
    playerId := 0, siomulti := fun _ => LINK_NO_DATA }

/-- A snapshot in which every slot reports DISCONNECTED. -/
def hwD : Hardware := { hwT with siomulti := fun _ => LINK_DISCONNECTED }

/-- A snapshot with the transport not ready. -/
def hwBad : Hardware := { hwT with isReady := false }

/-- c0 with one valid value queued outgoing. -/
def s8 : LinkConnection := lc_send c0 9

/-- cfg0 with silence timeout 0. -/
def cfg10 : LinkConnectionSettings := { cfg0 with timeout := 0 }

/-- A freshly activated connection configured with silence timeout 0. -/
def c10 : LinkConnection := lc_activate (lc_init cfg10 (fun _ => g0) g0)

/-- c0 with the silence counter already beyond the configured timeout. -/
def cexS : LinkConnection :=
  { c0 with state := { c0.state with irq_timeout := 7 } }

theorem u16q_push_eq (q : U16Queue) (n : Nat) :
    u16q_push q n =
      { buf := Function.update q.buf q.j n, cap := q.cap, len := q.len + 1,
        i := q.i, j := if q.j + 1 ≥ q.cap then 0 else q.j + 1 } := by
  simp only [u16q_push]
  by_cases h : q.j + 1 ≥ q.cap <;> simp [h]

theorem u16q_pop_eq (q : U16Queue) :
    u16q_pop q =
      { buf := q.buf, cap := q.cap, len := q.len - 1,
        i := if q.i + 1 ≥ q.cap then 0 else q.i + 1, j := q.j } := by
  simp only [u16q_pop]
  by_cases h : q.i + 1 ≥ q.cap <;> simp [h]

theorem u16q_empty_iff (q : U16Queue) : u16q_empty q = true ↔ q.i = q.j := by
  simp [u16q_empty]

theorem LINK_QUEUE_POP_empty (q : U16Queue) (h : q.i = q.j) :
    LINK_QUEUE_POP q = (LINK_NO_DATA, q) := by
  simp [LINK_QUEUE_POP, u16q_empty, h]

theorem LINK_QUEUE_POP_nonempty (q : U16Queue) (h : q.i ≠ q.j) :
    LINK_QUEUE_POP q = (q.buf q.i, u16q_pop q) := by
  simp [LINK_QUEUE_POP, u16q_empty, h, u16q_front]

theorem clearFuel_preserve (n : Nat) :
    ∀ q : U16Queue, (clearFuel n q).buf = q.buf ∧
      (clearFuel n q).cap = q.cap ∧ (clearFuel n q).j = q.j := by
  induction n with
  | zero => intro q; exact ⟨rfl, rfl, rfl⟩
  | succ m ih =>
    intro q
    by_cases h : u16q_empty q = true
    · simp [clearFuel, h]
    · have hstep : clearFuel (m + 1) q = clearFuel m (u16q_pop q) := by
        simp [clearFuel, h]
      obtain ⟨h1, h2, h3⟩ := ih (u16q_pop q)
      have hpb : (u16q_pop q).buf = q.buf := by rw [u16q_pop_eq]
      have hpc : (u16q_pop q).cap = q.cap := by rw [u16q_pop_eq]
      have hpj : (u16q_pop q).j = q.j := by rw [u16q_pop_eq]
      rw [hstep]
      exact ⟨h1.trans hpb, h2.trans hpc, h3.trans hpj⟩

theorem qdist_zero_iff (q : U16Queue) (hi : q.i < q.cap) (hj : q.j < q.cap) :
    qdist q = 0 ↔ q.i = q.j := by
  unfold qdist; split_ifs <;> omega

theorem pop_qdist (q : U16Queue) (hi : q.i < q.cap) (hj : q.j < q.cap)
    (hne : q.i ≠ q.j) :
    (u16q_pop q).i < q.cap ∧ qdist (u16q_pop q) + 1 = qdist q := by
  rw [u16q_pop_eq]; unfold qdist
  simp only []
  split_ifs <;> omega

theorem clearFuel_done (n : Nat) :
    ∀ q : U16Queue, q.i < q.cap → q.j < q.cap → qdist q ≤ n →
      (clearFuel (n + 1) q).i = (clearFuel (n + 1) q).j := by
  induction n with
  | zero =>
    intro q hi hj hd
    have hij : q.i = q.j := (qdist_zero_iff q hi hj).mp (Nat.le_zero.mp hd)
    simp [clearFuel, u16q_empty, hij]
  | succ m ih =>
    intro q hi hj hd
    by_cases h : q.i = q.j
    · simp [clearFuel, u16q_empty, h]
    · have hb : u16q_empty q = true → False := by
        rw [u16q_empty_iff]; exact h
      have hstep : clearFuel (m + 1 + 1) q = clearFuel (m + 1) (u16q_pop q) := by
        by_cases hq : u16q_empty q = true
        · exact absurd hq hb
        · simp [clearFuel, hq]
      rw [hstep]
      obtain ⟨hpi, hpd⟩ := pop_qdist q hi hj h
      have hpc : (u16q_pop q).cap = q.cap := by rw [u16q_pop_eq]
      have hpj : (u16q_pop q).j = q.j := by rw [u16q_pop_eq]
      apply ih
      · rw [hpc]; exact hpi
      · rw [hpc, hpj]; exact hj
      · omega

theorem clear_cursors (q : U16Queue) (hi : q.i < q.cap) (hj : q.j < q.cap) :
    (LINK_QUEUE_CLEAR q).i = (LINK_QUEUE_CLEAR q).j := by
  unfold LINK_QUEUE_CLEAR
  apply clearFuel_done q.cap q hi hj
  unfold qdist; split_ifs <;> omega

theorem clear_empty (q : U16Queue) (hi : q.i < q.cap) (hj : q.j < q.cap) :
    u16q_empty (LINK_QUEUE_CLEAR q) = true := by
  rw [u16q_empty_iff]; exact clear_cursors q hi hj

theorem InRegion_front (q : U16Queue) (hi : q.i < q.cap) (hne : q.i ≠ q.j) :
    InRegion q q.i := by
  unfold InRegion; split_ifs <;> omega

theorem InRegion_not_j (q : U16Queue) (x : Nat) (hx : InRegion q x) :
    x ≠ q.j := by
  unfold InRegion at hx; split_ifs at hx <;> omega

theorem push_region (q : U16Queue) (n x : Nat) (hi : q.i < q.cap)
    (hj : q.j < q.cap) (hx : InRegion (u16q_push q n) x) :
    InRegion q x ∨ x = q.j := by
  rw [u16q_push_eq] at hx
  unfold InRegion at hx ⊢
  simp only [] at hx
  split_ifs at hx ⊢ <;> omega

theorem pop_region (q : U16Queue) (x : Nat) (hi : q.i < q.cap)
    (hj : q.j < q.cap) (hne : q.i ≠ q.j) (hx : InRegion (u16q_pop q) x) :
    InRegion q x := by
  rw [u16q_pop_eq] at hx
  unfold InRegion at hx ⊢
  simp only [] at hx
  split_ifs at hx ⊢ <;> omega

theorem QInv_push (q : U16Queue) (n : Nat) (h : QInv q)
    (h0 : n ≠ LINK_NO_DATA) (h1 : n ≠ LINK_DISCONNECTED) :
    QInv (u16q_push q n) := by
  obtain ⟨hi, hj, hb⟩ := h
  refine ⟨?_, ?_, ?_⟩
  · rw [u16q_push_eq]; exact hi
  · rw [u16q_push_eq]; simp only []; split_ifs <;> omega
  · intro x hx
    rcases push_region q n x hi hj hx with hr | hxj
    · have hne := InRegion_not_j q x hr
      rw [u16q_push_eq]
      simp only [Function.update_noteq hne]
      exact hb x hr
    · subst hxj
      rw [u16q_push_eq]
      simp only [Function.update_same]
      exact ⟨h0, h1⟩

theorem QInv_pop (q : U16Queue) (h : QInv q) (hne : q.i ≠ q.j) :
    QInv (u16q_pop q) := by
  obtain ⟨hi, hj, hb⟩ := h
  refine ⟨?_, ?_, ?_⟩
  · rw [u16q_pop_eq]; simp only []; split_ifs <;> omega
  · rw [u16q_pop_eq]; exact hj
  · intro x hx
    have hr := pop_region q x hi hj hne hx
    rw [u16q_pop_eq]
    exact hb x hr

theorem QInv_POP (q : U16Queue) (h : QInv q) : QInv (LINK_QUEUE_POP q).2 := by
  by_cases hij : q.i = q.j
  · rw [LINK_QUEUE_POP_empty q hij]; exact h
  · rw [LINK_QUEUE_POP_nonempty q hij]; exact QInv_pop q h hij

theorem QInv_clearFuel (n : Nat) :
    ∀ q : U16Queue, QInv q → QInv (clearFuel n q) := by
  induction n with
  | zero => intro q h; exact h
  | succ m ih =>
    intro q h
    by_cases hq : u16q_empty q = true
    · simp [clearFuel, hq]; exact h
    · have hne : q.i ≠ q.j := by
        intro hij; exact hq ((u16q_empty_iff q).mpr hij)
      have hstep : clearFuel (m + 1) q = clearFuel m (u16q_pop q) := by
        simp [clearFuel, hq]
      rw [hstep]
      exact ih (u16q_pop q) (QInv_pop q h hne)

theorem QInv_clear (q : U16Queue) (h : QInv q) : QInv (LINK_QUEUE_CLEAR q) := by
  unfold LINK_QUEUE_CLEAR
  exact QInv_clearFuel (q.cap + 1) q h

theorem serialSlot_timeouts_self (rt d : Nat) (k : Fin 4)
    (p : LinkState × Nat) :
    (serialSlot rt d k p).1.timeouts k = slotTimeout (p.1.timeouts k) d rt := by
  unfold serialSlot slotTimeout
  split_ifs <;> simp [Function.update_same]

theorem serialSlot_incoming_self (rt d : Nat) (k : Fin 4)
    (p : LinkState × Nat) :
    (serialSlot rt d k p).1.incoming_messages k =
      slotQueue (p.1.incoming_messages k) (p.1.timeouts k) d rt
        p.1.current_player_id (k : Nat) := by
  unfold serialSlot slotQueue
  split_ifs <;> simp [Function.update_same]

theorem serialSlot_timeouts_frame {rt d : Nat} {k m : Fin 4}
    (p : LinkState × Nat) (h : m ≠ k) :
    (serialSlot rt d k p).1.timeouts m = p.1.timeouts m := by
  unfold serialSlot
  split_ifs <;> simp [Function.update_noteq h]

theorem serialSlot_incoming_frame {rt d : Nat} {k m : Fin 4}
    (p : LinkState × Nat) (h : m ≠ k) :
    (serialSlot rt d k p).1.incoming_messages m = p.1.incoming_messages m := by
  unfold serialSlot
  split_ifs <;> simp [Function.update_noteq h]

theorem serialSlot_pid (rt d : Nat) (k : Fin 4) (p : LinkState × Nat) :
    (serialSlot rt d k p).1.current_player_id = p.1.current_player_id := by
  unfold serialSlot
  split_ifs <;> rfl

theorem serialSlot_outgoing (rt d : Nat) (k : Fin 4) (p : LinkState × Nat) :
    (serialSlot rt d k p).1.outgoing_messages = p.1.outgoing_messages := by
  unfold serialSlot
  split_ifs <;> rfl

theorem serialSlot_player_count (rt d : Nat) (k : Fin 4)
    (p : LinkState × Nat) :
    (serialSlot rt d k p).1.player_count = p.1.player_count := by
  unfold serialSlot
  split_ifs <;> rfl

theorem serialSlot_irq_flag (rt d : Nat) (k : Fin 4) (p : LinkState × Nat) :
    (serialSlot rt d k p).1.irq_flag = p.1.irq_flag := by
  unfold serialSlot
  split_ifs <;> rfl

theorem serialSlot_irq_timeout (rt d : Nat) (k : Fin 4) (p : LinkState × Nat) :
    (serialSlot rt d k p).1.irq_timeout = p.1.irq_timeout := by
  unfold serialSlot
  split_ifs <;> rfl

theorem serialSlot_locked (rt d : Nat) (k : Fin 4) (p : LinkState × Nat) :
    (serialSlot rt d k p).1.is_locked = p.1.is_locked := by
  unfold serialSlot
  split_ifs <;> rfl

theorem serialSlot_cnt (rt d : Nat) (k : Fin 4) (p : LinkState × Nat) :
    (serialSlot rt d k p).2 = p.2 + countSlot (p.1.timeouts k) d rt := by
  unfold serialSlot countSlot
  split_ifs <;> simp


theorem serialLoop_timeouts (rt : Nat) (d : Fin 4 → Nat) (st : LinkState)
    (m : Fin 4) :
    (serialLoop rt d st).1.timeouts m =
      slotTimeout (st.timeouts m) (d m) rt := by
  fin_cases m
  · show (serialLoop rt d st).1.timeouts 0 =
      slotTimeout (st.timeouts 0) (d 0) rt
    unfold serialLoop
    rw [serialSlot_timeouts_frame _ (show (0 : Fin 4) ≠ 3 by decide),
      serialSlot_timeouts_frame _ (show (0 : Fin 4) ≠ 2 by decide),
      serialSlot_timeouts_frame _ (show (0 : Fin 4) ≠ 1 by decide),
      serialSlot_timeouts_self]
  · show (serialLoop rt d st).1.timeouts 1 =
      slotTimeout (st.timeouts 1) (d 1) rt
    unfold serialLoop
    rw [serialSlot_timeouts_frame _ (show (1 : Fin 4) ≠ 3 by decide),
      serialSlot_timeouts_frame _ (show (1 : Fin 4) ≠ 2 by decide),
      serialSlot_timeouts_self,
      serialSlot_timeouts_frame _ (show (1 : Fin 4) ≠ 0 by decide)]
  · show (serialLoop rt d st).1.timeouts 2 =
      slotTimeout (st.timeouts 2) (d 2) rt
    unfold serialLoop
    rw [serialSlot_timeouts_frame _ (show (2 : Fin 4) ≠ 3 by decide),
      serialSlot_timeouts_self,
      serialSlot_timeouts_frame _ (show (2 : Fin 4) ≠ 1 by decide),
      serialSlot_timeouts_frame _ (show (2 : Fin 4) ≠ 0 by decide)]
  · show (serialLoop rt d st).1.timeouts 3 =
      slotTimeout (st.timeouts 3) (d 3) rt
    unfold serialLoop
    rw [serialSlot_timeouts_self,
      serialSlot_timeouts_frame _ (show (3 : Fin 4) ≠ 2 by decide),
      serialSlot_timeouts_frame _ (show (3 : Fin 4) ≠ 1 by decide),
      serialSlot_timeouts_frame _ (show (3 : Fin 4) ≠ 0 by decide)]

theorem serialLoop_incoming (rt : Nat) (d : Fin 4 → Nat) (st : LinkState)
    (m : Fin 4) :
    (serialLoop rt d st).1.incoming_messages m =
      slotQueue (st.incoming_messages m) (st.timeouts m) (d m) rt
        st.current_player_id (m : Nat) := by
  fin_cases m
  · show (serialLoop rt d st).1.incoming_messages 0 =
      slotQueue (st.incoming_messages 0) (st.timeouts 0) (d 0) rt
        st.current_player_id 0
    unfold serialLoop
    rw [serialSlot_incoming_frame _ (show (0 : Fin 4) ≠ 3 by decide),
      serialSlot_incoming_frame _ (show (0 : Fin 4) ≠ 2 by decide),
      serialSlot_incoming_frame _ (show (0 : Fin 4) ≠ 1 by decide),
      serialSlot_incoming_self]
    rfl
  · show (serialLoop rt d st).1.incoming_messages 1 =
      slotQueue (st.incoming_messages 1) (st.timeouts 1) (d 1) rt
        st.current_player_id 1
    unfold serialLoop
    rw [serialSlot_incoming_frame _ (show (1 : Fin 4) ≠ 3 by decide),
      serialSlot_incoming_frame _ (show (1 : Fin 4) ≠ 2 by decide),
      serialSlot_incoming_self,
      serialSlot_incoming_frame _ (show (1 : Fin 4) ≠ 0 by decide),
      serialSlot_timeouts_frame _ (show (1 : Fin 4) ≠ 0 by decide),
      serialSlot_pid]
    rfl
  · show (serialLoop rt d st).1.incoming_messages 2 =
      slotQueue (st.incoming_messages 2) (st.timeouts 2) (d 2) rt
        st.current_player_id 2
    unfold serialLoop
    rw [serialSlot_incoming_frame _ (show (2 : Fin 4) ≠ 3 by decide),
      serialSlot_incoming_self,
      serialSlot_incoming_frame _ (show (2 : Fin 4) ≠ 1 by decide),
      serialSlot_incoming_frame _ (show (2 : Fin 4) ≠ 0 by decide),
      serialSlot_timeouts_frame _ (show (2 : Fin 4) ≠ 1 by decide),
      serialSlot_timeouts_frame _ (show (2 : Fin 4) ≠ 0 by decide),
      serialSlot_pid, serialSlot_pid]
    rfl
  · show (serialLoop rt d st).1.incoming_messages 3 =
      slotQueue (st.incoming_messages 3) (st.timeouts 3) (d 3) rt
        st.current_player_id 3
    unfold serialLoop
    rw [serialSlot_incoming_self,
      serialSlot_incoming_frame _ (show (3 : Fin 4) ≠ 2 by decide),
      serialSlot_incoming_frame _ (show (3 : Fin 4) ≠ 1 by decide),
      serialSlot_incoming_frame _ (show (3 : Fin 4) ≠ 0 by decide),
      serialSlot_timeouts_frame _ (show (3 : Fin 4) ≠ 2 by decide),
      serialSlot_timeouts_frame _ (show (3 : Fin 4) ≠ 1 by decide),
      serialSlot_timeouts_frame _ (show (3 : Fin 4) ≠ 0 by decide),
      serialSlot_pid, serialSlot_pid, serialSlot_pid]
    rfl

theorem serialLoop_cnt (rt : Nat) (d : Fin 4 → Nat) (st : LinkState) :
    (serialLoop rt d st).2 =
      countSlot (st.timeouts 0) (d 0) rt +
      countSlot (st.timeouts 1) (d 1) rt +
      countSlot (st.timeouts 2) (d 2) rt +
      countSlot (st.timeouts 3) (d 3) rt := by
  unfold serialLoop
  rw [serialSlot_cnt, serialSlot_cnt, serialSlot_cnt, serialSlot_cnt,
    serialSlot_timeouts_frame _ (show (1 : Fin 4) ≠ 0 by decide),
    serialSlot_timeouts_frame _ (show (2 : Fin 4) ≠ 1 by decide),
    serialSlot_timeouts_frame _ (show (2 : Fin 4) ≠ 0 by decide),
    serialSlot_timeouts_frame _ (show (3 : Fin 4) ≠ 2 by decide),
    serialSlot_timeouts_frame _ (show (3 : Fin 4) ≠ 1 by decide),
    serialSlot_timeouts_frame _ (show (3 : Fin 4) ≠ 0 by decide)]
  dsimp only []
  omega

theorem serialLoop_outgoing (rt : Nat) (d : Fin 4 → Nat) (st : LinkState) :
    (serialLoop rt d st).1.outgoing_messages = st.outgoing_messages := by
  unfold serialLoop
  rw [serialSlot_outgoing, serialSlot_outgoing, serialSlot_outgoing,
    serialSlot_outgoing]

theorem serialLoop_locked (rt : Nat) (d : Fin 4 → Nat) (st : LinkState) :
    (serialLoop rt d st).1.is_locked = st.is_locked := by
  unfold serialLoop
  rw [serialSlot_locked, serialSlot_locked, serialSlot_locked,
    serialSlot_locked]

theorem serialLoop_irq_flag (rt : Nat) (d : Fin 4 → Nat) (st : LinkState) :
    (serialLoop rt d st).1.irq_flag = st.irq_flag := by
  unfold serialLoop
  rw [serialSlot_irq_flag, serialSlot_irq_flag, serialSlot_irq_flag,
    serialSlot_irq_flag]

theorem serialLoop_irq_timeout (rt : Nat) (d : Fin 4 → Nat) (st : LinkState) :
    (serialLoop rt d st).1.irq_timeout = st.irq_timeout := by
  unfold serialLoop
  rw [serialSlot_irq_timeout, serialSlot_irq_timeout, serialSlot_irq_timeout,
    serialSlot_irq_timeout]

theorem onSerial_happy_eq (s : LinkConnection) (hw : Hardware)
    (hen : s.is_enabled = true) (hnl : s.state.is_locked = false)
    (hr : hw.isReady = true) (he : hw.hasError = false) :
    lc_on_serial s hw =
      (if hw.isSlave then
        ({ s with state :=
            { (serialLoop s.remote_timeout hw.siomulti
                { s.state with irq_flag := true, irq_timeout := 0 }).1 with
              player_count :=
                (serialLoop s.remote_timeout hw.siomulti
                  { s.state with irq_flag := true, irq_timeout := 0 }).2,
              current_player_id := (hw.playerId : Nat),
              outgoing_messages :=
                (LINK_QUEUE_POP (serialLoop s.remote_timeout hw.siomulti
                  { s.state with irq_flag := true, irq_timeout := 0
                  }).1.outgoing_messages).2 } },
         some (LINK_QUEUE_POP (serialLoop s.remote_timeout hw.siomulti
            { s.state with irq_flag := true, irq_timeout := 0
            }).1.outgoing_messages).1)
      else
        ({ s with state :=
            { (serialLoop s.remote_timeout hw.siomulti
                { s.state with irq_flag := true, irq_timeout := 0 }).1 with
              player_count :=
                (serialLoop s.remote_timeout hw.siomulti
                  { s.state with irq_flag := true, irq_timeout := 0 }).2,
              current_player_id := (hw.playerId : Nat) } }, none)) := by
  unfold lc_on_serial
  rw [hen, hnl, hr, he]
  rfl

theorem onSerial_timeouts (s : LinkConnection) (hw : Hardware)
    (hen : s.is_enabled = true) (hnl : s.state.is_locked = false)
    (hr : hw.isReady = true) (he : hw.hasError = false) (m : Fin 4) :
    (lc_on_serial s hw).1.state.timeouts m =
      slotTimeout (s.state.timeouts m) (hw.siomulti m) s.remote_timeout := by
  rw [onSerial_happy_eq s hw hen hnl hr he]
  by_cases hsl : hw.isSlave = true <;>
    simp [hsl, serialLoop_timeouts]

theorem onSerial_incoming (s : LinkConnection) (hw : Hardware)
    (hen : s.is_enabled = true) (hnl : s.state.is_locked = false)
    (hr : hw.isReady = true) (he : hw.hasError = false) (m : Fin 4) :
    (lc_on_serial s hw).1.state.incoming_messages m =
      slotQueue (s.state.incoming_messages m) (s.state.timeouts m)
        (hw.siomulti m) s.remote_timeout s.state.current_player_id
        (m : Nat) := by
  rw [onSerial_happy_eq s hw hen hnl hr he]
  by_cases hsl : hw.isSlave = true <;>
    simp [hsl, serialLoop_incoming]

theorem onSerial_player_count (s : LinkConnection) (hw : Hardware)
    (hen : s.is_enabled = true) (hnl : s.state.is_locked = false)
    (hr : hw.isReady = true) (he : hw.hasError = false) :
    (lc_on_serial s hw).1.state.player_count =
      countSlot (s.state.timeouts 0) (hw.siomulti 0) s.remote_timeout +
      countSlot (s.state.timeouts 1) (hw.siomulti 1) s.remote_timeout +
      countSlot (s.state.timeouts 2) (hw.siomulti 2) s.remote_timeout +
      countSlot (s.state.timeouts 3) (hw.siomulti 3) s.remote_timeout := by
  rw [onSerial_happy_eq s hw hen hnl hr he]
  by_cases hsl : hw.isSlave = true <;>
    simp [hsl, serialLoop_cnt]

theorem onSerial_is_enabled (s : LinkConnection) (hw : Hardware) :
    (lc_on_serial s hw).1.is_enabled = s.is_enabled := by
  unfold lc_on_serial lc_reset lc_reset_state
  split
  · rfl
  · split
    · rfl
    · dsimp only []
      split <;> rfl

theorem onSerial_cfg (s : LinkConnection) (hw : Hardware) :
    (lc_on_serial s hw).1.remote_timeout = s.remote_timeout ∧
    (lc_on_serial s hw).1.timeout = s.timeout ∧
    (lc_on_serial s hw).1.buffer_size = s.buffer_size := by
  unfold lc_on_serial lc_reset lc_reset_state
  split
  · exact ⟨rfl, rfl, rfl⟩
  · split
    · exact ⟨rfl, rfl, rfl⟩
    · dsimp only []
      split <;> exact ⟨rfl, rfl, rfl⟩

theorem onSerial_is_locked (s : LinkConnection) (hw : Hardware) :
    (lc_on_serial s hw).1.state.is_locked = s.state.is_locked := by
  unfold lc_on_serial lc_reset lc_reset_state
  split
  · rfl
  · split
    · rfl
    · dsimp only []
      split
      · show (serialLoop s.remote_timeout hw.siomulti
            { s.state with irq_flag := true, irq_timeout := 0 }).1.is_locked =
          s.state.is_locked
        rw [serialLoop_locked]
      · show (serialLoop s.remote_timeout hw.siomulti
            { s.state with irq_flag := true, irq_timeout := 0 }).1.is_locked =
          s.state.is_locked
        rw [serialLoop_locked]

theorem vblank_step_eq (s : LinkConnection) (hen : s.is_enabled = true)
    (hnl : s.state.is_locked = false) (hflag : s.state.irq_flag = false) :
    lc_on_vblank s = { s with state := { s.state with
      irq_flag := false, irq_timeout := s.state.irq_timeout + 1 } } := by
  unfold lc_on_vblank
  rw [hen, hnl, hflag]
  rfl

theorem vblankIter_facts (s : LinkConnection) (hen : s.is_enabled = true)
    (hnl : s.state.is_locked = false) (hflag : s.state.irq_flag = false) :
    ∀ n : Nat, (vblankIter s n).is_enabled = true ∧
      (vblankIter s n).state.is_locked = false ∧
      (vblankIter s n).state.irq_flag = false ∧
      (vblankIter s n).state.irq_timeout = s.state.irq_timeout + n ∧
      (vblankIter s n).timeout = s.timeout := by
  intro n
  induction n with
  | zero => exact ⟨hen, hnl, hflag, rfl, rfl⟩
  | succ m ih =>
    obtain ⟨h1, h2, h3, h4, h5⟩ := ih
    have hv := vblank_step_eq (vblankIter s m) h1 h2 h3
    have hstep : vblankIter s (m + 1) = lc_on_vblank (vblankIter s m) := rfl
    rw [hstep, hv]
    refine ⟨h1, h2, rfl, ?_, h5⟩
    show (vblankIter s m).state.irq_timeout + 1 = s.state.irq_timeout + (m + 1)
    omega

theorem onTimer_timeout_eq (s : LinkConnection) (hw : Hardware)
    (hen : s.is_enabled = true) (hnl : s.state.is_locked = false)
    (hto : s.timeout ≤ s.state.irq_timeout) :
    lc_on_timer s hw = (lc_reset s, none) := by
  unfold lc_on_timer lc_did_timeout
  rw [hen, hnl]
  simp [hto]

theorem onTimer_transmit_eq (s : LinkConnection) (hw : Hardware)
    (hen : s.is_enabled = true) (hnl : s.state.is_locked = false)
    (hto : s.state.irq_timeout < s.timeout)
    (hm : hw.isSlave = false) (hr : hw.isReady = true)
    (hsn : hw.isSending = false) :
    lc_on_timer s hw =
      ({ s with state := { s.state with outgoing_messages :=
          (LINK_QUEUE_POP s.state.outgoing_messages).2 } },
       some (LINK_QUEUE_POP s.state.outgoing_messages).1) := by
  unfold lc_on_timer lc_did_timeout
  rw [hen, hnl, hm, hr, hsn]
  have hn : ¬(s.state.irq_timeout ≥ s.timeout) := by omega
  simp [hn]

theorem lc_send_push (s : LinkConnection) (v : Nat) (h0 : v ≠ LINK_NO_DATA)
    (h1 : v ≠ LINK_DISCONNECTED) :
    lc_send s v = { s with state := { s.state with
      outgoing_messages := u16q_push s.state.outgoing_messages v } } := by
  unfold lc_send
  rw [if_neg]
  rintro (h | h)
  · exact h1 h
  · exact h0 h

theorem lc_read_message_eq (s : LinkConnection) (pid : Fin 4) :
    lc_read_message s pid =
      ((LINK_QUEUE_POP (s.state.incoming_messages pid)).1,
       { s with state := { s.state with incoming_messages :=
           (Function.update s.state.incoming_messages pid
             (LINK_QUEUE_POP (s.state.incoming_messages pid)).2) } }) := rfl

theorem serialIter_aux (s : LinkConnection) (hws : Nat → Hardware)
    (i : Fin 4) (hen : s.is_enabled = true)
    (hnl : s.state.is_locked = false) (ht : s.state.timeouts i = 0)
    (hhw : ∀ n : Nat, (hws n).isReady = true ∧ (hws n).hasError = false ∧
      (hws n).siomulti i = LINK_DISCONNECTED) :
    ∀ n : Nat, n < s.remote_timeout →
      (serialIter s hws n).is_enabled = true ∧
      (serialIter s hws n).state.is_locked = false ∧
      (serialIter s hws n).remote_timeout = s.remote_timeout ∧
      (serialIter s hws n).state.timeouts i = (n : Int) ∧
      (serialIter s hws n).state.incoming_messages i =
        s.state.incoming_messages i := by
  intro n
  induction n with
  | zero =>
    intro _
    refine ⟨hen, hnl, rfl, ?_, rfl⟩
    show s.state.timeouts i = ((0 : Nat) : Int)
    rw [ht]; simp
  | succ m ih =>
    intro hlt
    have hm : m < s.remote_timeout := by omega
    obtain ⟨h1, h2, h3, h4, h5⟩ := ih hm
    obtain ⟨hr, he, hd⟩ := hhw m
    have hstep : serialIter s hws (m + 1) =
        (lc_on_serial (serialIter s hws m) (hws m)).1 := rfl
    refine ⟨?_, ?_, ?_, ?_, ?_⟩
    · rw [hstep, onSerial_is_enabled]; exact h1
    · rw [hstep, onSerial_is_locked]; exact h2
    · rw [hstep, (onSerial_cfg _ _).1]; exact h3
    · rw [hstep, onSerial_timeouts _ _ h1 h2 hr he i, h3, h4, hd]
      unfold slotTimeout
      rw [if_neg (by simp), if_pos (by
        unfold LINK_REMOTE_TIMEOUT_OFFLINE; omega),
        if_neg (by push_cast; omega)]
      push_cast; ring
    · rw [hstep, onSerial_incoming _ _ h1 h2 hr he i, h3, h4, h5, hd]
      unfold slotQueue
      rw [if_neg (by simp), if_pos (by
        unfold LINK_REMOTE_TIMEOUT_OFFLINE; omega),
        if_neg (by push_cast; omega)]

/-- Claim C4: a slot with a fresh (zero) silent-exchange counter that reads
DISCONNECTED on consecutive exchanges keeps its counter, its queue and its
peer-count contribution while the count stays below remote_timeout, and on
the exchange where the count reaches remote_timeout its queue is cleared,
its counter is set to the offline sentinel and it is excluded from the new
peer count. -/
theorem remote_timeout_grace_and_eviction (s : LinkConnection)
    (hws : Nat → Hardware) (i : Fin 4) (hen : s.is_enabled = true)
    (hnl : s.state.is_locked = false) (ht : s.state.timeouts i = 0)
    (hii : (s.state.incoming_messages i).i < (s.state.incoming_messages i).cap)
    (hij : (s.state.incoming_messages i).j < (s.state.incoming_messages i).cap)
    (hrt : 0 < s.remote_timeout)
    (hhw : ∀ n : Nat, (hws n).isReady = true ∧ (hws n).hasError = false ∧
      (hws n).siomulti i = LINK_DISCONNECTED) :
    gracePeriodSpec s hws i := by
  have hsum : ∀ n : Nat,
      countSlot ((serialIter s hws n).state.timeouts 0)
        ((hws n).siomulti 0) s.remote_timeout +
      countSlot ((serialIter s hws n).state.timeouts 1)
        ((hws n).siomulti 1) s.remote_timeout +
      countSlot ((serialIter s hws n).state.timeouts 2)
        ((hws n).siomulti 2) s.remote_timeout +
      countSlot ((serialIter s hws n).state.timeouts 3)
        ((hws n).siomulti 3) s.remote_timeout =
      (∑ m ∈ Finset.univ.erase i,
        countSlot ((serialIter s hws n).state.timeouts m)
          ((hws n).siomulti m) s.remote_timeout) +
      countSlot ((serialIter s hws n).state.timeouts i)
        ((hws n).siomulti i) s.remote_timeout := by
    intro n
    rw [Finset.sum_erase_add _ _ (Finset.mem_univ i)]
    rw [Fin.sum_univ_four]
  constructor
  · intro n hlt
    have hm : n < s.remote_timeout := by omega
    obtain ⟨h1, h2, h3, h4, h5⟩ := serialIter_aux s hws i hen hnl ht hhw n hm
    obtain ⟨hn1, hn2, hn3, hn4, hn5⟩ :=
      serialIter_aux s hws i hen hnl ht hhw (n + 1) hlt
    obtain ⟨hr, he, hd⟩ := hhw n
    refine ⟨?_, hn5, ?_⟩
    · rw [hn4]; push_cast; ring
    · have hstep : serialIter s hws (n + 1) =
          (lc_on_serial (serialIter s hws n) (hws n)).1 := rfl
      rw [hstep, onSerial_player_count _ _ h1 h2 hr he, h3, hsum n]
      have hci : countSlot ((serialIter s hws n).state.timeouts i)
          ((hws n).siomulti i) s.remote_timeout = 1 := by
        rw [h4, hd]
        unfold countSlot
        rw [if_neg (by simp), if_pos (by
          unfold LINK_REMOTE_TIMEOUT_OFFLINE; omega),
          if_neg (by push_cast; omega)]
      rw [hci]
  · have hlt : s.remote_timeout - 1 < s.remote_timeout := by omega
    obtain ⟨h1, h2, h3, h4, h5⟩ :=
      serialIter_aux s hws i hen hnl ht hhw (s.remote_timeout - 1) hlt
    obtain ⟨hr, he, hd⟩ := hhw (s.remote_timeout - 1)
    have hstep : serialIter s hws s.remote_timeout =
        (lc_on_serial (serialIter s hws (s.remote_timeout - 1))
          (hws (s.remote_timeout - 1))).1 := by
      conv_lhs => rw [show s.remote_timeout = (s.remote_timeout - 1) + 1
        from by omega]
      rfl
    refine ⟨?_, ?_, ?_⟩
    · rw [hstep, onSerial_timeouts _ _ h1 h2 hr he i, h3, h4, hd]
      unfold slotTimeout
      rw [if_neg (by simp), if_pos (by
        unfold LINK_REMOTE_TIMEOUT_OFFLINE; omega),
        if_pos (by push_cast; omega)]
    · rw [hstep, onSerial_incoming _ _ h1 h2 hr he i, h3, h4, h5, hd]
      unfold slotQueue
      rw [if_neg (by simp), if_pos (by
        unfold LINK_REMOTE_TIMEOUT_OFFLINE; omega),
        if_pos (by push_cast; omega)]
      exact clear_empty _ hii hij
    · rw [hstep, onSerial_player_count _ _ h1 h2 hr he, h3,
        hsum (s.remote_timeout - 1)]
      have hci : countSlot
          ((serialIter s hws (s.remote_timeout - 1)).state.timeouts i)
          ((hws (s.remote_timeout - 1)).siomulti i) s.remote_timeout = 0 := by
        rw [h4, hd]
        unfold countSlot
        rw [if_neg (by simp), if_pos (by
          unfold LINK_REMOTE_TIMEOUT_OFFLINE; omega),
          if_pos (by push_cast; omega)]
      rw [hci]
      omega

theorem QInv_slotQueue (q : U16Queue) (t : Int) (d rt pid k : Nat)
    (h : QInv q) : QInv (slotQueue q t d rt pid k) := by
  unfold slotQueue
  split_ifs with h1 h2 h3 h4
  · exact QInv_push q d h h2.1 h1
  · exact h
  · exact QInv_clear q h
  · exact h
  · exact h

theorem QInv_init (cfg : LinkConnectionSettings) (gin : Fin 4 → Nat → Nat)
    (gout : Nat → Nat) (hbs : 0 < cfg.buffer_size) :
    ∀ m : Fin 4, QInv ((lc_init cfg gin gout).state.incoming_messages m) := by
  intro m
  show QInv (u16q_init cfg.buffer_size (gin m))
  unfold QInv u16q_init InRegion
  refine ⟨hbs, hbs, ?_⟩
  intro x hx
  simp only [] at hx
  split_ifs at hx with hc
  · exact absurd hx (by omega)
  · exact absurd (le_refl 0) hc

theorem QInv_send (s : LinkConnection) (v : Nat)
    (h : ∀ m : Fin 4, QInv (s.state.incoming_messages m)) :
    ∀ m : Fin 4, QInv ((lc_send s v).state.incoming_messages m) := by
  intro m
  unfold lc_send
  split_ifs <;> exact h m

theorem QInv_read (s : LinkConnection) (pid : Fin 4)
    (h : ∀ m : Fin 4, QInv (s.state.incoming_messages m)) :
    ∀ m : Fin 4,
      QInv ((lc_read_message s pid).2.state.incoming_messages m) := by
  intro m
  by_cases hm : m = pid
  · subst hm
    show QInv (Function.update s.state.incoming_messages m
      (LINK_QUEUE_POP (s.state.incoming_messages m)).2 m)
    rw [Function.update_same]
    exact QInv_POP _ (h m)
  · show QInv (Function.update s.state.incoming_messages pid
      (LINK_QUEUE_POP (s.state.incoming_messages pid)).2 m)
    rw [Function.update_noteq hm]
    exact h m

theorem QInv_vblank (s : LinkConnection)
    (h : ∀ m : Fin 4, QInv (s.state.incoming_messages m)) :
    ∀ m : Fin 4, QInv ((lc_on_vblank s).state.incoming_messages m) := by
  intro m
  unfold lc_on_vblank
  split_ifs <;> exact h m

theorem QInv_reset (s : LinkConnection)
    (h : ∀ m : Fin 4, QInv (s.state.incoming_messages m)) :
    ∀ m : Fin 4, QInv ((lc_reset_state s).state.incoming_messages m) := by
  intro m
  exact QInv_clear _ (h m)

theorem QInv_timer (s : LinkConnection) (hw : Hardware)
    (h : ∀ m : Fin 4, QInv (s.state.incoming_messages m)) :
    ∀ m : Fin 4, QInv ((lc_on_timer s hw).1.state.incoming_messages m) := by
  intro m
  unfold lc_on_timer
  split_ifs
  · exact h m
  · exact QInv_clear _ (h m)
  · exact h m
  · exact h m

theorem QInv_onSerial (s : LinkConnection) (hw : Hardware)
    (h : ∀ m : Fin 4, QInv (s.state.incoming_messages m)) :
    ∀ m : Fin 4, QInv ((lc_on_serial s hw).1.state.incoming_messages m) := by
  intro m
  by_cases hg1 : (!s.is_enabled || s.state.is_locked) = true
  · have : (lc_on_serial s hw).1 = s := by
      unfold lc_on_serial; rw [if_pos hg1]
    rw [this]; exact h m
  · by_cases hg2 : (!hw.isReady || hw.hasError) = true
    · have : (lc_on_serial s hw).1 = lc_reset s := by
        unfold lc_on_serial; rw [if_neg hg1, if_pos hg2]
      rw [this]; exact QInv_clear _ (h m)
    · have hen : s.is_enabled = true := by
        cases he : s.is_enabled
        · rw [he] at hg1; simp at hg1
        · rfl
      have hnl : s.state.is_locked = false := by
        cases hl : s.state.is_locked
        · rfl
        · rw [hl] at hg1; simp at hg1
      have hr : hw.isReady = true := by
        cases hv : hw.isReady
        · rw [hv] at hg2; simp at hg2
        · rfl
      have he : hw.hasError = false := by
        cases hv : hw.hasError
        · rfl
        · rw [hv] at hg2; simp at hg2
      rw [onSerial_incoming s hw hen hnl hr he m]
      exact QInv_slotQueue _ _ _ _ _ _ (h m)

theorem reachable_QInv (s : LinkConnection) (h : Reachable s) :
    ∀ m : Fin 4, QInv (s.state.incoming_messages m) := by
  induction h with
  | init cfg gin gout hbs =>
    intro m
    exact QInv_clear _ (QInv_init cfg gin gout hbs m)
  | vblank hs ih => exact QInv_vblank _ ih
  | timer hw hs ih => exact QInv_timer _ hw ih
  | serial hw hhw hs ih => exact QInv_onSerial _ hw ih
  | send v hv hs ih => exact QInv_send _ v ih
  | read pid hs ih => exact QInv_read _ pid ih
  | activate hs ih => exact QInv_reset _ ih
  | deactivate hs ih => exact QInv_reset _ ih

/-- Claim C4 witness: the grace/eviction property instantiated at the
concrete post-exchange state s2 (remote_timeout 5), slot 0, with every
subsequent exchange reporting DISCONNECTED. -/
theorem remote_timeout_grace_and_eviction_witness :
    gracePeriodSpec s2 (fun _ => hwD) 0 :=
  remote_timeout_grace_and_eviction s2 (fun _ => hwD) 0 (by decide)
    (by decide) (by decide) (by decide) (by decide) (by decide)
    (fun _ => ⟨rfl, rfl, rfl⟩)

/-- Claim C1 (code evaluation at the failing input): with capacity 2, after
lc_send 1, 2 the cursor-equality emptiness test already reports the queue
empty; after lc_send 1, 2, 3 the length field is 3 (beyond capacity) and the
next pop yields 3, not the 2 that drop-oldest FIFO retention ([2,3]) would
deliver. -/
theorem lc_send_overflow_loses_fifo :
    u16q_empty ((lc_send (lc_send c0 1) 2).state.outgoing_messages) = true ∧
    ((lc_send (lc_send (lc_send c0 1) 2) 3).state.outgoing_messages).len
      = 3 ∧
    (LINK_QUEUE_POP
      ((lc_send (lc_send (lc_send c0 1) 2) 3).state.outgoing_messages)).1
      = 3 ∧
    (LINK_QUEUE_POP
      ((lc_send (lc_send (lc_send c0 1) 2) 3).state.outgoing_messages)).1
      ≠ 2 := by decide

/-- Claim C2 counterexample: in the reachable state s2 (peer_count 2, slot
2's queue holding 7), read_message on the out-of-range slot 2 returns 7 —
not the NO_DATA sentinel — and advances that queue's head cursor, so the
state is changed. -/
theorem lc_read_message_out_of_range_returns_data :
    s2.state.player_count = 2 ∧
    (lc_read_message s2 2).1 = 7 ∧
    (lc_read_message s2 2).1 ≠ LINK_NO_DATA ∧
    ((lc_read_message s2 2).2.state.incoming_messages 2).i = 1 ∧
    (s2.state.incoming_messages 2).i = 0 := by decide

/-- Claim C2 (amended): read_message performs no peer_count range check; for
every slot id (0..3) it unconditionally pops that slot's incoming queue,
returning NO_DATA without state change only when the queue's emptiness test
holds. -/
theorem lc_read_message_unchecked (s : LinkConnection) (pid : Fin 4) :
    (lc_read_message s pid).1 =
      (LINK_QUEUE_POP (s.state.incoming_messages pid)).1 ∧
    (lc_read_message s pid).2.state.incoming_messages pid =
      (LINK_QUEUE_POP (s.state.incoming_messages pid)).2 ∧
    (u16q_empty (s.state.incoming_messages pid) = true →
      (lc_read_message s pid).1 = LINK_NO_DATA ∧
      (lc_read_message s pid).2 = s) := by
  refine ⟨rfl, ?_, ?_⟩
  · show Function.update s.state.incoming_messages pid
      (LINK_QUEUE_POP (s.state.incoming_messages pid)).2 pid = _
    rw [Function.update_same]
  · intro hemp
    have hij := (u16q_empty_iff _).mp hemp
    have hpop := LINK_QUEUE_POP_empty _ hij
    constructor
    · show (LINK_QUEUE_POP (s.state.incoming_messages pid)).1 = LINK_NO_DATA
      rw [hpop]
    · show { s with state := { s.state with incoming_messages :=
          (Function.update s.state.incoming_messages pid
            (LINK_QUEUE_POP (s.state.incoming_messages pid)).2) } } = s
      rw [hpop]
      simp [Function.update_eq_self]

/-- Claim C2 witness: on the freshly activated c0 (slot 2's queue empty),
the amended statement is discharged: read_message returns NO_DATA and the
connection is unchanged. -/
theorem lc_read_message_unchecked_witness :
    (lc_read_message c0 2).1 =
      (LINK_QUEUE_POP (c0.state.incoming_messages 2)).1 ∧
    (lc_read_message c0 2).2.state.incoming_messages 2 =
      (LINK_QUEUE_POP (c0.state.incoming_messages 2)).2 ∧
    ((lc_read_message c0 2).1 = LINK_NO_DATA ∧
      (lc_read_message c0 2).2 = c0) := by
  obtain ⟨h1, h2, h3⟩ := lc_read_message_unchecked c0 2
  exact ⟨h1, h2, h3 (by decide)⟩

/-- Claim C3: after a full reset the counts are zero, every incoming queue
and the outgoing queue report empty, every per-peer timeout counter is the
offline sentinel, the activity flag is cleared and the silence counter is 0;
activation produces exactly the reset state, and the watchdog-expiry and
hardware-not-ready/error paths of the two reactions perform exactly
lc_reset. -/
theorem lc_reset_postcondition (s : LinkConnection) (k : Fin 4)
    (hw : Hardware)
    (hki : (s.state.incoming_messages k).i < (s.state.incoming_messages k).cap)
    (hkj : (s.state.incoming_messages k).j < (s.state.incoming_messages k).cap)
    (hoi : s.state.outgoing_messages.i < s.state.outgoing_messages.cap)
    (hoj : s.state.outgoing_messages.j < s.state.outgoing_messages.cap) :
    (lc_reset s).state.player_count = 0 ∧
    (lc_reset s).state.current_player_id = 0 ∧
    u16q_empty ((lc_reset s).state.incoming_messages k) = true ∧
    (lc_reset s).state.timeouts k = LINK_REMOTE_TIMEOUT_OFFLINE ∧
    u16q_empty ((lc_reset s).state.outgoing_messages) = true ∧
    (lc_reset s).state.irq_flag = false ∧
    (lc_reset s).state.irq_timeout = 0 ∧
    (lc_activate s).state = (lc_reset s).state ∧
    (s.is_enabled = true → s.state.is_locked = false →
      s.timeout ≤ s.state.irq_timeout → (lc_on_timer s hw).1 = lc_reset s) ∧
    (s.is_enabled = true → s.state.is_locked = false →
      (hw.isReady = false ∨ hw.hasError = true) →
      (lc_on_serial s hw).1 = lc_reset s) := by
  refine ⟨rfl, rfl, ?_, rfl, ?_, rfl, rfl, rfl, ?_, ?_⟩
  · exact clear_empty _ hki hkj
  · exact clear_empty _ hoi hoj
  · intro hen hnl hto
    rw [onTimer_timeout_eq s hw hen hnl hto]
  · intro hen hnl hre
    unfold lc_on_serial
    rw [hen, hnl]
    have hg : (!hw.isReady || hw.hasError) = true := by
      rcases hre with h | h <;> rw [h] <;> simp
    rw [if_neg (by simp), if_pos hg]

/-- Claim C3 witness: the reset postcondition discharged on a concrete
enabled connection whose silence counter has passed the timeout, with the
transport reporting not-ready. -/
theorem lc_reset_postcondition_witness :
    (lc_reset cexS).state.player_count = 0 ∧
    (lc_reset cexS).state.current_player_id = 0 ∧
    u16q_empty ((lc_reset cexS).state.incoming_messages 1) = true ∧
    (lc_reset cexS).state.timeouts 1 = LINK_REMOTE_TIMEOUT_OFFLINE ∧
    u16q_empty ((lc_reset cexS).state.outgoing_messages) = true ∧
    (lc_reset cexS).state.irq_flag = false ∧
    (lc_reset cexS).state.irq_timeout = 0 ∧
    (lc_activate cexS).state = (lc_reset cexS).state ∧
    (lc_on_timer cexS hwBad).1 = lc_reset cexS ∧
    (lc_on_serial cexS hwBad).1 = lc_reset cexS := by
  obtain ⟨h1, h2, h3, h4, h5, h6, h7, h8, h9, h10⟩ :=
    lc_reset_postcondition cexS 1 hwBad (by decide) (by decide) (by decide)
      (by decide)
  exact ⟨h1, h2, h3, h4, h5, h6, h7, h8,
    h9 (by decide) (by decide) (by decide),
    h10 (by decide) (by decide) (Or.inl (by decide))⟩

/-- Claim C5 counterexample: with silence timeout 1, immediately after a
successful exchange (activity flag set) exactly one tick reaction runs with
no intervening exchange — at least silence_timeout ticks — yet the silence
counter is still 0, and the next enabled, unguarded pace reaction does NOT
perform a full reset (peer_count stays 2, not 0) and DOES hand a value to
the transport. -/
theorem silence_timeout_tick_boundary_cex :
    s5c.is_enabled = true ∧ s5c.state.is_locked = false ∧
    s5c.timeout = 1 ∧ s5c.state.irq_timeout = 0 ∧
    (lc_on_timer s5c hwT).1.state.player_count = 2 ∧
    (lc_on_timer s5c hwT).2 = some LINK_NO_DATA := by decide

/-- Claim C5 (amended): if the activity flag is clear when the ticks begin
(as it is right after a reset, and after the first tick following any
exchange), then after at least silence_timeout tick reactions with no
intervening successful exchange the silence counter has reached the
timeout and the next enabled, unguarded pace reaction performs a full
reset and hands nothing to the transport. -/
theorem silence_timeout_forces_reset (s : LinkConnection) (hw : Hardware)
    (n : Nat) (hen : s.is_enabled = true) (hnl : s.state.is_locked = false)
    (hflag : s.state.irq_flag = false) (hn : s.timeout ≤ n) :
    (vblankIter s n).state.irq_timeout = s.state.irq_timeout + n ∧
    lc_on_timer (vblankIter s n) hw = (lc_reset (vblankIter s n), none) := by
  obtain ⟨h1, h2, h3, h4, h5⟩ := vblankIter_facts s hen hnl hflag n
  refine ⟨h4, ?_⟩
  apply onTimer_timeout_eq _ _ h1 h2
  rw [h4, h5]
  omega

/-- Claim C5 witness: three ticks on the freshly activated c0 (silence
timeout 3) reach the timeout and the pace reaction resets. -/
theorem silence_timeout_forces_reset_witness :
    (vblankIter c0 3).state.irq_timeout = c0.state.irq_timeout + 3 ∧
    lc_on_timer (vblankIter c0 3) hwT = (lc_reset (vblankIter c0 3), none) :=
  silence_timeout_forces_reset c0 hwT 3 (by decide) (by decide) (by decide)
    (by decide)

/-- Claim C6: lc_send of either reserved sentinel is a no-op on the whole
connection, and lc_send of any non-sentinel value w changes at most one
buffer cell of the outgoing queue, writing w itself there — so send never
enqueues 0x0000 or 0xFFFF. -/
theorem lc_send_sentinel_noop (s : LinkConnection) (v w x : Nat)
    (h : v = LINK_NO_DATA ∨ v = LINK_DISCONNECTED)
    (h0 : w ≠ LINK_NO_DATA) (h1 : w ≠ LINK_DISCONNECTED) :
    lc_send s v = s ∧
    ((lc_send s w).state.outgoing_messages.buf x =
        s.state.outgoing_messages.buf x ∨
      (lc_send s w).state.outgoing_messages.buf x = w) := by
  constructor
  · unfold lc_send
    rw [if_pos (Or.elim h (fun hh => Or.inr hh) (fun hh => Or.inl hh))]
  · rw [lc_send_push s w h0 h1]
    show (u16q_push s.state.outgoing_messages w).buf x = _ ∨
      (u16q_push s.state.outgoing_messages w).buf x = w
    rw [u16q_push_eq]
    by_cases hx : x = s.state.outgoing_messages.j
    · subst hx
      right
      show Function.update s.state.outgoing_messages.buf
        s.state.outgoing_messages.j w s.state.outgoing_messages.j = w
      rw [Function.update_same]
    · left
      show Function.update s.state.outgoing_messages.buf
        s.state.outgoing_messages.j w x = s.state.outgoing_messages.buf x
      rw [Function.update_noteq hx]

/-- Claim C6 witness: sending the NO_DATA sentinel on c0 is a no-op, and
sending 9 leaves cell 0 either untouched or holding 9. -/
theorem lc_send_sentinel_noop_witness :
    lc_send c0 0 = c0 ∧
    ((lc_send c0 9).state.outgoing_messages.buf 0 =
        c0.state.outgoing_messages.buf 0 ∨
      (lc_send c0 9).state.outgoing_messages.buf 0 = 9) :=
  lc_send_sentinel_noop c0 0 9 0 (Or.inl rfl) (by decide) (by decide)

/-- Claim C7: in every reachable state no live incoming-queue cell holds a
reserved sentinel, read_message never returns DISCONNECTED, and it returns
NO_DATA only when the slot's queue reports empty. -/
theorem incoming_queues_sentinel_free (s : LinkConnection)
    (h : Reachable s) : sentinelFreeSpec s := by
  have hq := reachable_QInv s h
  constructor
  · intro k x hx
    exact (hq k).2.2 x hx
  · intro pid
    obtain ⟨hi, hj, hb⟩ := hq pid
    by_cases hij : (s.state.incoming_messages pid).i =
        (s.state.incoming_messages pid).j
    · constructor
      · show (LINK_QUEUE_POP (s.state.incoming_messages pid)).1 ≠
          LINK_DISCONNECTED
        rw [LINK_QUEUE_POP_empty _ hij]
        exact (by decide : LINK_NO_DATA ≠ LINK_DISCONNECTED)
      · intro _
        exact (u16q_empty_iff _).mpr hij
    · have hfront := hb _ (InRegion_front _ hi hij)
      constructor
      · show (LINK_QUEUE_POP (s.state.incoming_messages pid)).1 ≠
          LINK_DISCONNECTED
        rw [LINK_QUEUE_POP_nonempty _ hij]
        exact hfront.2
      · intro h0
        exfalso
        have h1 : (LINK_QUEUE_POP (s.state.incoming_messages pid)).1 =
            LINK_NO_DATA := h0
        rw [LINK_QUEUE_POP_nonempty _ hij] at h1
        exact hfront.1 h1

/-- Claim C7 witness: the sentinel-freedom property discharged on the
freshly activated connection c0. -/
theorem incoming_queues_sentinel_free_witness : sentinelFreeSpec c0 :=
  incoming_queues_sentinel_free c0
    (Reachable.init cfg0 (fun _ => g0) g0 (by decide))

/-- Claim C8: for an enabled, unguarded master with the watchdog not
expired and the transport ready and idle, the pace reaction pops the
outgoing queue and hands exactly the popped value to the transport; when
the queue held one element the popped value is the stored front cell and
the queue is empty afterwards (when it was empty, the NO_DATA sentinel is
handed over and the queue stays empty). -/
theorem lc_on_timer_master_transmits (s : LinkConnection) (hw : Hardware)
    (hen : s.is_enabled = true) (hnl : s.state.is_locked = false)
    (hto : s.state.irq_timeout < s.timeout) (hm : hw.isSlave = false)
    (hr : hw.isReady = true) (hsn : hw.isSending = false)
    (hone : s.state.outgoing_messages.i = s.state.outgoing_messages.j ∨
      (s.state.outgoing_messages.i ≠ s.state.outgoing_messages.j ∧
        s.state.outgoing_messages.j =
          (s.state.outgoing_messages.i + 1) % s.state.outgoing_messages.cap ∧
        s.state.outgoing_messages.i < s.state.outgoing_messages.cap)) :
    (lc_on_timer s hw).2 =
      some (LINK_QUEUE_POP s.state.outgoing_messages).1 ∧
    (lc_on_timer s hw).1.state.outgoing_messages =
      (LINK_QUEUE_POP s.state.outgoing_messages).2 ∧
    (s.state.outgoing_messages.i ≠ s.state.outgoing_messages.j →
      (LINK_QUEUE_POP s.state.outgoing_messages).1 =
        s.state.outgoing_messages.buf s.state.outgoing_messages.i) ∧
    u16q_empty ((lc_on_timer s hw).1.state.outgoing_messages) = true := by
  have heq := onTimer_transmit_eq s hw hen hnl hto hm hr hsn
  refine ⟨?_, ?_, ?_, ?_⟩
  · rw [heq]
  · rw [heq]
  · intro hne
    rw [LINK_QUEUE_POP_nonempty _ hne]
  · rw [heq]
    show u16q_empty (LINK_QUEUE_POP s.state.outgoing_messages).2 = true
    rcases hone with hij | ⟨hne, hsucc, hic⟩
    · rw [LINK_QUEUE_POP_empty _ hij]
      exact (u16q_empty_iff _).mpr hij
    · rw [LINK_QUEUE_POP_nonempty _ hne, u16q_empty_iff, u16q_pop_eq]
      show (if s.state.outgoing_messages.i + 1 ≥
          s.state.outgoing_messages.cap then 0
        else s.state.outgoing_messages.i + 1) = s.state.outgoing_messages.j
      split_ifs with hc
      · rw [show s.state.outgoing_messages.i + 1 =
            s.state.outgoing_messages.cap from by omega, Nat.mod_self]
          at hsucc
        omega
      · rw [Nat.mod_eq_of_lt (by omega)] at hsucc
        omega

/-- Claim C8 witness: on c0 with the single value 9 queued and a
master/ready/idle snapshot, the pace reaction transmits 9 and empties the
queue. -/
theorem lc_on_timer_master_transmits_witness :
    (lc_on_timer s8 hwT).2 =
      some (LINK_QUEUE_POP s8.state.outgoing_messages).1 ∧
    (lc_on_timer s8 hwT).1.state.outgoing_messages =
      (LINK_QUEUE_POP s8.state.outgoing_messages).2 ∧
    (s8.state.outgoing_messages.i ≠ s8.state.outgoing_messages.j →
      (LINK_QUEUE_POP s8.state.outgoing_messages).1 =
        s8.state.outgoing_messages.buf s8.state.outgoing_messages.i) ∧
    u16q_empty ((lc_on_timer s8 hwT).1.state.outgoing_messages) = true :=
  lc_on_timer_master_transmits s8 hwT (by decide) (by decide) (by decide)
    (by decide) (by decide) (by decide) (Or.inr (by decide))

/-- Claim C10: with the silence timeout configured as 0 the non-negative
silence counter always satisfies the >= test, so every enabled, unguarded
pace reaction performs a full reset and never reaches the master transmit
branch (no value is handed to the transport). -/
theorem zero_silence_timeout_always_resets (s : LinkConnection)
    (hw : Hardware) (h0 : s.timeout = 0) (hen : s.is_enabled = true)
    (hnl : s.state.is_locked = false) :
    lc_on_timer s hw = (lc_reset s, none) :=
  onTimer_timeout_eq s hw hen hnl (by omega)

/-- Claim C10 witness: a freshly activated connection configured with
silence timeout 0 resets on the very first pace reaction, even with a
master/ready/idle transport snapshot. -/
theorem zero_silence_timeout_always_resets_witness :
    lc_on_timer c10 hwT = (lc_reset c10, none) :=
  zero_silence_timeout_always_resets c10 hwT (by decide) (by decide)
    (by decide)

theorem lc_send_foldl_queue :
    ∀ (l : List Nat) (s : LinkConnection),
      (∀ v ∈ l, v ≠ LINK_NO_DATA ∧ v ≠ LINK_DISCONNECTED) →
      (List.foldl lc_send s l).state.outgoing_messages =
        List.foldl u16q_push s.state.outgoing_messages l := by
  intro l
  induction l with
  | nil => intro s _; rfl
  | cons a t ih =>
    intro s hv
    have ha := hv a (List.mem_cons_self a t)
    have ht : ∀ v ∈ t, v ≠ LINK_NO_DATA ∧ v ≠ LINK_DISCONNECTED := by
      intro v hvt
      exact hv v (List.mem_cons_of_mem a hvt)
    show (List.foldl lc_send (lc_send s a) t).state.outgoing_messages =
      List.foldl u16q_push (u16q_push s.state.outgoing_messages a) t
    rw [ih (lc_send s a) ht, lc_send_push s a ha.1 ha.2]

theorem pushList_cursors :
    ∀ (l : List Nat) (q : U16Queue), q.j < q.cap →
      (List.foldl u16q_push q l).i = q.i ∧
      (List.foldl u16q_push q l).cap = q.cap ∧
      (List.foldl u16q_push q l).len = q.len + l.length ∧
      (List.foldl u16q_push q l).j = (q.j + l.length) % q.cap := by
  intro l
  induction l with
  | nil =>
    intro q hj
    refine ⟨rfl, rfl, rfl, ?_⟩
    show q.j = (q.j + 0) % q.cap
    rw [Nat.add_zero, Nat.mod_eq_of_lt hj]
  | cons a t ih =>
    intro q hj
    have hcap : 0 < q.cap := by omega
    have hj2 : (u16q_push q a).j < (u16q_push q a).cap := by
      rw [u16q_push_eq]
      simp only []
      split_ifs <;> omega
    obtain ⟨h1, h2, h3, h4⟩ := ih (u16q_push q a) hj2
    have hpi : (u16q_push q a).i = q.i := by rw [u16q_push_eq]
    have hpc : (u16q_push q a).cap = q.cap := by rw [u16q_push_eq]
    have hpl : (u16q_push q a).len = q.len + 1 := by rw [u16q_push_eq]
    have hpj : (u16q_push q a).j = (q.j + 1) % q.cap := by
      rw [u16q_push_eq]
      simp only []
      split_ifs with h
      · rw [show q.j + 1 = q.cap from by omega, Nat.mod_self]
      · rw [Nat.mod_eq_of_lt (by omega)]
    have hstep : List.foldl u16q_push q (a :: t) =
        List.foldl u16q_push (u16q_push q a) t := rfl
    refine ⟨?_, ?_, ?_, ?_⟩
    · rw [hstep, h1, hpi]
    · rw [hstep, h2, hpc]
    · rw [hstep, h3, hpl]
      show q.len + 1 + t.length = q.len + (a :: t).length
      rw [List.length_cons]
      omega
    · rw [hstep, h4, hpj, hpc, Nat.mod_add_mod]
      congr 1
      rw [List.length_cons]
      omega

/-- Claim C9: from an empty, well-formed outgoing queue of capacity
buffer_size, after exactly buffer_size lc_send calls with valid payloads
and no intervening pop, the cursor-equality emptiness test reports the
queue empty while the length field equals buffer_size; the next pop
therefore returns the NO_DATA sentinel and leaves the queue unchanged, so
iterated pops can never deliver any of the queued values. -/
theorem send_capacity_overflow_empties_queue (s : LinkConnection)
    (l : List Nat)
    (hij : s.state.outgoing_messages.i = s.state.outgoing_messages.j)
    (hic : s.state.outgoing_messages.i < s.state.outgoing_messages.cap)
    (hlen : s.state.outgoing_messages.len = 0)
    (hcap : s.state.outgoing_messages.cap = s.buffer_size)
    (hl : l.length = s.buffer_size)
    (hval : ∀ v ∈ l, v ≠ LINK_NO_DATA ∧ v ≠ LINK_DISCONNECTED) :
    u16q_empty ((List.foldl lc_send s l).state.outgoing_messages) = true ∧
    ((List.foldl lc_send s l).state.outgoing_messages).len =
      s.buffer_size ∧
    LINK_QUEUE_POP ((List.foldl lc_send s l).state.outgoing_messages) =
      (LINK_NO_DATA,
       (List.foldl lc_send s l).state.outgoing_messages) := by
  have hq := lc_send_foldl_queue l s hval
  have hj : s.state.outgoing_messages.j < s.state.outgoing_messages.cap := by
    omega
  obtain ⟨h1, h2, h3, h4⟩ := pushList_cursors l s.state.outgoing_messages hj
  have hjfinal : (List.foldl u16q_push s.state.outgoing_messages l).j =
      s.state.outgoing_messages.i := by
    rw [h4, hl, ← hcap, hij, Nat.add_mod_right, Nat.mod_eq_of_lt hj]
  have hempty :
      u16q_empty (List.foldl u16q_push s.state.outgoing_messages l) =
        true := by
    rw [u16q_empty_iff, h1, hjfinal]
  refine ⟨?_, ?_, ?_⟩
  · rw [hq]; exact hempty
  · rw [hq, h3, hlen, hl]
    omega
  · rw [hq]
    exact LINK_QUEUE_POP_empty _ ((u16q_empty_iff _).mp (hq ▸ hempty))

/-- Claim C9 witness: on the freshly activated c0 (capacity 2), sending 1
then 2 leaves a queue that reports empty with length 2, whose pop returns
the NO_DATA sentinel without change. -/
theorem send_capacity_overflow_empties_queue_witness :
    u16q_empty ((List.foldl lc_send c0 [1, 2]).state.outgoing_messages) =
      true ∧
    ((List.foldl lc_send c0 [1, 2]).state.outgoing_messages).len =
      c0.buffer_size ∧
    LINK_QUEUE_POP ((List.foldl lc_send c0 [1, 2]).state.outgoing_messages) =
      (LINK_NO_DATA,
       (List.foldl lc_send c0 [1, 2]).state.outgoing_messages) :=
  send_capacity_overflow_empties_queue c0 [1, 2] (by decide) (by decide)
    (by decide) (by decide) (by decide) (by decide)
